import Mathlib

/-!
# FoodHub backend — verification of the order/product/review service

Shallow embedding of `src/unnamed/part_000` (the Azle canister of the
FoodHub repository).  Each exported function of the canister becomes a
Lean function; the module-level `StableBTreeMap` collections become
explicit state threaded through the mutating functions.

Modelling conventions, fixed once for the whole file:

* The persistent key-value storage engine is external to the repository
  and is treated, as the spec directs, as an opaque ordered map keyed by
  string with value semantics: `get` returns the stored record (a value,
  not an alias into the store) and only `insert` persists.  In
  particular an assignment to a field of a record obtained from `get`
  (as `cancelOrder` / `confirmOrder` / `deliverOrder` do with
  `order.status = ...`) mutates the local copy only and is not
  re-persisted — exactly the behaviour the spec records for these
  handlers ("the mutation is applied to the in-memory match result, not
  explicitly re-persisted to the backing map").
* `Principal` identities are modelled as `String` (the source only ever
  compares them through `toString()`).
* `nat64` becomes `Nat`; the TypeScript `number` fields
  (`quantityAvailable`, `quantity`, `rating`) become `Int`, since the
  code never restricts their sign.  JavaScript falsiness of a required
  field is `= ""` for strings and `= 0` for numbers.
* The nondeterministic environment of a call (`ic.caller()`,
  `ic.time()`, the `uuidv4()` fresh id) is passed as explicit
  parameters; the deployment-time `owner` principal is likewise a
  parameter of the functions that read it.
* The map's `get` returns an `Opt` variant object — `{Some: value}` or
  `{None: null}`.  Where the source destructures it with the `match`
  combinator, the embedding is a Lean `match` on `Option`; where the
  source instead tests it for JavaScript truthiness (the duplicate
  check of `addProduct`), the test is embedded by `optTruthy`, which is
  constantly `true`, because both variant objects are objects and every
  object is truthy.
-/

namespace FoodHub

/-- The `FoodProduct` record of the source (`id`, `name`, `description`,
`price : nat64`, `quantityAvailable : number`). -/
structure FoodProduct where
  id : String
  name : String
  description : String
  price : Nat
  quantityAvailable : Int
deriving DecidableEq, Repr

/-- The `FoodPayload` record of the source: the caller-supplied fields of a
product. -/
structure FoodPayload where
  name : String
  description : String
  price : Nat
  quantityAvailable : Int
deriving DecidableEq, Repr

/-- The `Order` record of the source. -/
structure Order where
  id : String
  customerId : String
  productId : String
  quantity : Int
  status : String
  createdAt : Nat
deriving DecidableEq, Repr

/-- The `OrderPayload` record of the source. -/
structure OrderPayload where
  productId : String
  quantity : Int
deriving DecidableEq, Repr

/-- The `CustomerInteraction` record of the source. -/
structure CustomerInteraction where
  id : String
  customerId : String
  productId : String
  rating : Int
  review : String
  createdAt : Nat
deriving DecidableEq, Repr

/-- The `CustomerInteractionPayload` record of the source. -/
structure CustomerInteractionPayload where
  productId : String
  rating : Int
  review : String
deriving DecidableEq, Repr

/-- A `StableBTreeMap<string, α>` collection, modelled as an association
list with value semantics.  `mapGet` is the map's `get`. -/
def mapGet {α : Type} : List (String × α) → String → Option α
  | [], _ => none
  | (k, v) :: rest, key => if key = k then some v else mapGet rest key

/-- The map's `insert`: stores `v` under `k`, replacing any record
previously stored under `k`. -/
def mapInsert {α : Type} (m : List (String × α)) (k : String) (v : α) :
    List (String × α) :=
  (k, v) :: m.filter (fun p => p.1 ≠ k)

/-- Embedding of `getProductsbyId(id)`: empty-id guard, then lookup. -/
def getProductsbyId (foodProducts : List (String × FoodProduct)) (id : String) :
    Except String FoodProduct :=
  if id = "" then Except.error "Invalid ID provided."
  else
    match mapGet foodProducts id with
    | some product => Except.ok product
    | none => Except.error ("Product with id=" ++ id ++ " not found")

/-- JavaScript truthiness of the `Opt` variant object returned by the
map's `get`: both `{Some: value}` and `{None: null}` are objects, and
every object is truthy, so the test is `true` regardless of the
underlying option. -/
def optTruthy {α : Type} (_opt : Option α) : Bool := true

/-- Embedding of `addProduct(payload)`: falsiness validation of the
four payload fields, fresh id, then the source's duplicate check
`if (existingProduct)`.  `existingProduct` is the `Opt` variant object
returned by `get`, which is always truthy (`optTruthy`), so the
duplicate-error branch is always taken and the insert below it is dead
code: after validation the function always fails and never inserts. -/
def addProduct (foodProducts : List (String × FoodProduct)) (freshId : String)
    (payload : FoodPayload) :
    Except String FoodProduct × List (String × FoodProduct) :=
  if payload.name = "" ∨ payload.description = "" ∨ payload.price = 0 ∨
      payload.quantityAvailable = 0 then
    (Except.error "Invalid payload", foodProducts)
  else
    let product : FoodProduct :=
      { id := freshId, name := payload.name, description := payload.description,
        price := payload.price, quantityAvailable := payload.quantityAvailable }
    let existingProduct := mapGet foodProducts product.id
    if optTruthy existingProduct then
      (Except.error "Product with the same id already exists", foodProducts)
    else
      (Except.ok product, mapInsert foodProducts product.id product)

/-- Embedding of `updateProductQuantity(productId, newQuantity)`: empty-id guard,
lookup (not-found before ownership), owner check, then replace the
stored record's quantity. -/
def updateProductQuantity (foodProducts : List (String × FoodProduct))
    (owner caller : String) (productId : String) (newQuantity : Int) :
    Except String FoodProduct × List (String × FoodProduct) :=
  if productId = "" then (Except.error "Invalid Product ID provided.", foodProducts)
  else
    match mapGet foodProducts productId with
    | some product =>
        if owner ≠ caller then
          (Except.error "You are not the owner of this product", foodProducts)
        else
          let updatedProduct : FoodProduct := { product with quantityAvailable := newQuantity }
          (Except.ok updatedProduct, mapInsert foodProducts product.id updatedProduct)
    | none =>
        (Except.error ("Couldn't update Product with id=" ++ productId ++ ". Product not found"),
         foodProducts)

/-- Embedding of `placeOrder(payload)`: falsiness validation, product lookup, order
creation and insert, inventory decrement (no floor check).  Returns the
result, the new product collection and the new order collection. -/
def placeOrder (foodProducts : List (String × FoodProduct))
    (orders : List (String × Order)) (caller : String) (time : Nat) (freshId : String)
    (payload : OrderPayload) :
    Except String Order × List (String × FoodProduct) × List (String × Order) :=
  if payload.productId = "" ∨ payload.quantity = 0 then
    (Except.error "Invalid payload", foodProducts, orders)
  else
    match mapGet foodProducts payload.productId with
    | some product =>
        let order : Order :=
          { id := freshId, customerId := caller, productId := payload.productId,
            quantity := payload.quantity, status := "placed", createdAt := time }
        let updatedProduct : FoodProduct :=
          { product with quantityAvailable := product.quantityAvailable - payload.quantity }
        (Except.ok order, mapInsert foodProducts product.id updatedProduct,
         mapInsert orders freshId order)
    | none => (Except.error "Product not found", foodProducts, orders)

/-- Embedding of `cancelOrder(orderId)`: empty-id guard, lookup, owning-customer
check, `placed`-status check.  The source's `order.status = 'cancelled'`
assigns to the local copy returned by `get` and is never written back to
the store, so the order collection is returned unchanged in every
branch. -/
def cancelOrder (orders : List (String × Order)) (caller : String) (orderId : String) :
    Bool × List (String × Order) :=
  if orderId = "" then (false, orders)
  else
    match mapGet orders orderId with
    | some order =>
        if order.customerId ≠ caller then (false, orders)
        else if order.status = "placed" then (true, orders)
        else (false, orders)
    | none => (false, orders)

/-- Embedding of `confirmOrder(orderId)`: empty-id guard, lookup, `placed`-status
check; no ownership check of any kind (the function never reads the
caller).  The status assignment again only touches the local copy. -/
def confirmOrder (orders : List (String × Order)) (orderId : String) :
    Bool × List (String × Order) :=
  if orderId = "" then (false, orders)
  else
    match mapGet orders orderId with
    | some order =>
        if order.status = "placed" then (true, orders)
        else (false, orders)
    | none => (false, orders)

/-- Embedding of `deliverOrder(orderId)`: empty-id guard, lookup, deployment-owner
check, `confirmed`-status check.  The status assignment again only
touches the local copy. -/
def deliverOrder (orders : List (String × Order)) (owner caller : String)
    (orderId : String) : Bool × List (String × Order) :=
  if orderId = "" then (false, orders)
  else
    match mapGet orders orderId with
    | some order =>
        if owner ≠ caller then (false, orders)
        else if order.status = "confirmed" then (true, orders)
        else (false, orders)
    | none => (false, orders)

/-- Embedding of `addCustomerInteraction(payload)`: falsiness validation of the three
payload fields, fresh id, stamp caller and time, insert. -/
def addCustomerInteraction (customerInteractions : List (String × CustomerInteraction))
    (caller : String) (time : Nat) (freshId : String)
    (payload : CustomerInteractionPayload) :
    Except String CustomerInteraction × List (String × CustomerInteraction) :=
  if payload.productId = "" ∨ payload.rating = 0 ∨ payload.review = "" then
    (Except.error "Invalid payload", customerInteractions)
  else
    let interaction : CustomerInteraction :=
      { id := freshId, customerId := caller, productId := payload.productId,
        rating := payload.rating, review := payload.review, createdAt := time }
    (Except.ok interaction, mapInsert customerInteractions freshId interaction)

/-- The admissible status transitions of the order state machine:
staying put, or moving along `placed → confirmed → delivered` /
`placed → cancelled`. -/
def statusStepOK (s t : String) : Prop :=
  s = t ∨ (s = "placed" ∧ (t = "confirmed" ∨ t = "cancelled")) ∨
    (s = "confirmed" ∧ t = "delivered")

/-- Key/record-id agreement over the product collection, as an
executable check: every stored pair `(k, p)` satisfies `p.id = k`. -/
def productMapInv (foodProducts : List (String × FoodProduct)) : Bool :=
  foodProducts.all (fun kp => kp.2.id == kp.1)

/-- A concrete product used to instantiate the theorems below. -/
def sampleProduct : FoodProduct :=
  { id := "p1", name := "Burger", description := "beef burger", price := 500,
    quantityAvailable := 10 }

/-- A one-product collection whose key agrees with the record id. -/
def sampleProducts : List (String × FoodProduct) := [("p1", sampleProduct)]

/-- A concrete order payload for product `p1`. -/
def sampleOrderPayload : OrderPayload := { productId := "p1", quantity := 3 }

/-- A concrete order in the `placed` state, owned by `alice`. -/
def alicePlacedOrder : Order :=
  { id := "o1", customerId := "alice", productId := "p1", quantity := 2,
    status := "placed", createdAt := 3 }

/-- A concrete order already in the terminal `cancelled` state. -/
def aliceCancelledOrder : Order :=
  { id := "o2", customerId := "alice", productId := "p1", quantity := 1,
    status := "cancelled", createdAt := 4 }

/-!
## General lemmas about the map model and helper lemmas
-/

/-- Looking up a key other than the one filtered out sees through the
filter. -/
theorem mapGet_filter_ne {α : Type} (m : List (String × α)) (k k' : String)
    (h : k' ≠ k) :
    mapGet (m.filter (fun p => p.1 ≠ k)) k' = mapGet m k' := by
  induction m with
  | nil => rfl
  | cons hd tl ih =>
    obtain ⟨a, b⟩ := hd
    rw [List.filter_cons]
    by_cases hk : a = k
    · have hne : k' ≠ a := fun hc => h (hc.trans hk)
      rw [if_neg (by simp [hk]), ih, mapGet, if_neg hne]
    · rw [if_pos (by simp [hk]), mapGet, mapGet, ih]

/-- Characterisation of `get` after `insert`. -/
theorem mapGet_mapInsert {α : Type} (m : List (String × α)) (k k' : String) (v : α) :
    mapGet (mapInsert m k v) k' = if k' = k then some v else mapGet m k' := by
  unfold mapInsert
  by_cases h : k' = k
  · simp [mapGet, h]
  · rw [mapGet, if_neg h, if_neg h]
    exact mapGet_filter_ne m k k' h

/-- Helper: `cancelOrder` returns the order collection unchanged in every
branch (the status assignment is never written back). -/
theorem cancelOrder_snd (orders : List (String × Order)) (caller orderId : String) :
    (cancelOrder orders caller orderId).2 = orders := by
  unfold cancelOrder
  split
  · rfl
  · split
    · split
      · rfl
      · split
        · rfl
        · rfl
    · rfl

/-- Helper: `confirmOrder` returns the order collection unchanged in every
branch. -/
theorem confirmOrder_snd (orders : List (String × Order)) (orderId : String) :
    (confirmOrder orders orderId).2 = orders := by
  unfold confirmOrder
  split
  · rfl
  · split
    · split
      · rfl
      · rfl
    · rfl

/-- Helper: `deliverOrder` returns the order collection unchanged in every
branch. -/
theorem deliverOrder_snd (orders : List (String × Order)) (owner caller orderId : String) :
    (deliverOrder orders owner caller orderId).2 = orders := by
  unfold deliverOrder
  split
  · rfl
  · split
    · split
      · rfl
      · split
        · rfl
        · rfl
    · rfl

/-- The executable key/id check implies the pointwise property through
`mapGet`. -/
theorem productMapInv_get (m : List (String × FoodProduct)) (k : String) (p : FoodProduct) :
    productMapInv m = true → mapGet m k = some p → p.id = k := by
  induction m with
  | nil => intro _ h; simp [mapGet] at h
  | cons hd tl ih =>
    intro hm h
    obtain ⟨a, b⟩ := hd
    simp only [productMapInv, List.all_cons, Bool.and_eq_true, beq_iff_eq] at hm
    obtain ⟨hm1, hm2⟩ := hm
    rw [mapGet] at h
    by_cases hk : k = a
    · rw [if_pos hk] at h
      injection h with h'
      rw [← h', hm1, hk]
    · rw [if_neg hk] at h
      exact ih hm2 h

/-- Inserting a record whose `id` agrees with its key preserves the
key/id invariant. -/
theorem productMapInv_mapInsert (m : List (String × FoodProduct)) (k : String)
    (v : FoodProduct) (hm : productMapInv m = true) (hv : v.id = k) :
    productMapInv (mapInsert m k v) = true := by
  unfold productMapInv at hm ⊢
  unfold mapInsert
  rw [List.all_cons]
  simp only [Bool.and_eq_true, beq_iff_eq]
  refine ⟨hv, ?_⟩
  rw [List.all_eq_true]
  intro x hx
  have hxm := List.mem_of_mem_filter hx
  have := List.all_eq_true.mp hm x hxm
  simpa using this

/-- Helper: `addProduct` preserves the key/id invariant: the only insert uses
the new record's own `id` as key. -/
theorem productMapInv_addProduct (m : List (String × FoodProduct)) (freshId : String)
    (payload : FoodPayload) (hm : productMapInv m = true) :
    productMapInv (addProduct m freshId payload).2 = true := by
  unfold addProduct
  split
  · exact hm
  · dsimp only
    split
    · exact hm
    · exact productMapInv_mapInsert _ _ _ hm rfl

/-- Helper: `updateProductQuantity` preserves the key/id invariant: the insert
key is the stored record's own `id`, which the update does not alter. -/
theorem productMapInv_updateProductQuantity (m : List (String × FoodProduct))
    (owner caller productId : String) (newQuantity : Int)
    (hm : productMapInv m = true) :
    productMapInv (updateProductQuantity m owner caller productId newQuantity).2 = true := by
  unfold updateProductQuantity
  split
  · exact hm
  · split
    · split
      · exact hm
      · exact productMapInv_mapInsert _ _ _ hm rfl
    · exact hm

/-- Helper: `placeOrder` preserves the key/id invariant on the product
collection. -/
theorem productMapInv_placeOrder (m : List (String × FoodProduct))
    (orders : List (String × Order)) (caller : String) (time : Nat)
    (freshId : String) (payload : OrderPayload) (hm : productMapInv m = true) :
    productMapInv (placeOrder m orders caller time freshId payload).2.1 = true := by
  unfold placeOrder
  split
  · exact hm
  · split
    · exact productMapInv_mapInsert _ _ _ hm rfl
    · exact hm

/-!
## Claim theorems
-/

/-- Claim C1: for a stored product with `quantityAvailable = Q` and a
`placeOrder` call with nonempty `productId`, nonzero quantity `q` and an
existing product, the call returns an order with status `placed`,
`customerId` the calling identity and `createdAt` the current time, the
order is inserted into the order collection, and the stored product's
`quantityAvailable` becomes `Q - q` — the plain subtraction, with no
floor check, which also covers `q > Q`. -/
theorem placeOrder_places_and_decrements
    (foodProducts : List (String × FoodProduct)) (orders : List (String × Order))
    (caller : String) (time : Nat) (freshId : String) (payload : OrderPayload)
    (p : FoodProduct)
    (hpid : payload.productId ≠ "") (hq : payload.quantity ≠ 0)
    (hget : mapGet foodProducts payload.productId = some p)
    (hid : p.id = payload.productId) :
    (placeOrder foodProducts orders caller time freshId payload).1 =
      Except.ok { id := freshId, customerId := caller, productId := payload.productId,
                  quantity := payload.quantity, status := "placed", createdAt := time }
    ∧ mapGet (placeOrder foodProducts orders caller time freshId payload).2.2 freshId =
      some { id := freshId, customerId := caller, productId := payload.productId,
             quantity := payload.quantity, status := "placed", createdAt := time }
    ∧ mapGet (placeOrder foodProducts orders caller time freshId payload).2.1 payload.productId =
      some { p with quantityAvailable := p.quantityAvailable - payload.quantity } := by
  have hcond : ¬(payload.productId = "" ∨ payload.quantity = 0) := not_or.mpr ⟨hpid, hq⟩
  simp only [placeOrder, if_neg hcond, hget]
  refine ⟨trivial, ?_, ?_⟩
  · rw [mapGet_mapInsert, if_pos rfl]
  · rw [hid, mapGet_mapInsert, if_pos rfl]

/-- Concrete instantiation of `placeOrder_places_and_decrements`:
product `p1` has 10 units, `alice` orders 3, the order is stored in
state `placed` and the stored quantity becomes 7. -/
theorem placeOrder_places_and_decrements_witness :
    (sampleOrderPayload.productId ≠ "" ∧ sampleOrderPayload.quantity ≠ 0
      ∧ mapGet sampleProducts sampleOrderPayload.productId = some sampleProduct
      ∧ sampleProduct.id = sampleOrderPayload.productId)
    ∧ ((placeOrder sampleProducts [] "alice" 11 "o1" sampleOrderPayload).1 =
        Except.ok { id := "o1", customerId := "alice",
                    productId := sampleOrderPayload.productId,
                    quantity := sampleOrderPayload.quantity, status := "placed",
                    createdAt := 11 }
      ∧ mapGet (placeOrder sampleProducts [] "alice" 11 "o1" sampleOrderPayload).2.2 "o1" =
        some { id := "o1", customerId := "alice",
               productId := sampleOrderPayload.productId,
               quantity := sampleOrderPayload.quantity, status := "placed",
               createdAt := 11 }
      ∧ mapGet (placeOrder sampleProducts [] "alice" 11 "o1" sampleOrderPayload).2.1
          sampleOrderPayload.productId =
        some { sampleProduct with
               quantityAvailable := sampleProduct.quantityAvailable - sampleOrderPayload.quantity }) :=
  ⟨⟨by decide, by decide, by decide, by decide⟩,
   placeOrder_places_and_decrements sampleProducts [] "alice" 11 "o1" sampleOrderPayload
     sampleProduct (by decide) (by decide) (by decide) (by decide)⟩

/-- Claim C7, evaluated at its failing input: the duplicate check tests
the always-truthy `Opt` variant object, so even for the fully valid
pizza payload over the empty collection `addProduct` returns the
duplicate-id error, inserts nothing, and the subsequent lookup fails;
moreover, for every payload and every state, `addProduct` never returns
`Ok` and never changes the collection — the add-then-lookup round trip
the claim describes is false of the program. -/
theorem addProduct_never_ok :
    addProduct [] "p1"
        { name := "Pizza", description := "cheese pizza", price := 700,
          quantityAvailable := 5 } =
      (Except.error "Product with the same id already exists",
       ([] : List (String × FoodProduct)))
    ∧ getProductsbyId
        (addProduct [] "p1"
          { name := "Pizza", description := "cheese pizza", price := 700,
            quantityAvailable := 5 }).2 "p1" =
      Except.error "Product with id=p1 not found"
    ∧ (∀ foodProducts freshId payload (p : FoodProduct),
        (addProduct foodProducts freshId payload).1 ≠ Except.ok p)
    ∧ (∀ foodProducts freshId payload,
        (addProduct foodProducts freshId payload).2 = foodProducts) := by
  refine ⟨by rfl, by rfl, ?_, ?_⟩
  · intro foodProducts freshId payload p h
    unfold addProduct at h
    split at h
    · exact Except.noConfusion h
    · simp [optTruthy] at h
  · intro foodProducts freshId payload
    unfold addProduct
    split
    · rfl
    · simp [optTruthy]

/-- Claim C8: a payload with any falsy field — in particular a price or
a quantity of exactly 0 — makes `addProduct` return the invalid-input
error and leave the product collection untouched. -/
theorem addProduct_rejects_falsy_payload
    (foodProducts : List (String × FoodProduct)) (freshId : String)
    (payload : FoodPayload)
    (h : payload.name = "" ∨ payload.description = "" ∨ payload.price = 0 ∨
      payload.quantityAvailable = 0) :
    addProduct foodProducts freshId payload =
      (Except.error "Invalid payload", foodProducts) := by
  unfold addProduct
  rw [if_pos h]

/-- Concrete instantiation of `addProduct_rejects_falsy_payload`: a
payload whose only falsy field is a price of exactly 0 is rejected and
inserts nothing. -/
theorem addProduct_rejects_falsy_payload_witness :
    (({ name := "Pizza", description := "cheese pizza", price := 0,
        quantityAvailable := 5 : FoodPayload }).name = ""
      ∨ ({ name := "Pizza", description := "cheese pizza", price := 0,
           quantityAvailable := 5 : FoodPayload }).description = ""
      ∨ ({ name := "Pizza", description := "cheese pizza", price := 0,
           quantityAvailable := 5 : FoodPayload }).price = 0
      ∨ ({ name := "Pizza", description := "cheese pizza", price := 0,
           quantityAvailable := 5 : FoodPayload }).quantityAvailable = 0)
    ∧ addProduct sampleProducts "p9"
        { name := "Pizza", description := "cheese pizza", price := 0, quantityAvailable := 5 } =
      (Except.error "Invalid payload", sampleProducts) :=
  ⟨by decide,
   addProduct_rejects_falsy_payload sampleProducts "p9"
     { name := "Pizza", description := "cheese pizza", price := 0, quantityAvailable := 5 }
     (by decide)⟩

/-- Claim C9: `addCustomerInteraction` rejects a rating of exactly 0 (or
any other falsy field) with the invalid-input error and no insertion,
while every nonzero rating — negative or above 5 alike — is accepted
with no range validation, producing a record stamped with the caller and
the current time that is stored and returned. -/
theorem addCustomerInteraction_zero_vs_nonzero_rating
    (customerInteractions : List (String × CustomerInteraction))
    (caller : String) (time : Nat) (freshId : String)
    (payload : CustomerInteractionPayload) :
    (payload.productId = "" ∨ payload.rating = 0 ∨ payload.review = "" →
      addCustomerInteraction customerInteractions caller time freshId payload =
        (Except.error "Invalid payload", customerInteractions))
    ∧ (payload.productId ≠ "" → payload.rating ≠ 0 → payload.review ≠ "" →
      addCustomerInteraction customerInteractions caller time freshId payload =
        (Except.ok { id := freshId, customerId := caller, productId := payload.productId,
                     rating := payload.rating, review := payload.review, createdAt := time },
         mapInsert customerInteractions freshId
           { id := freshId, customerId := caller, productId := payload.productId,
             rating := payload.rating, review := payload.review, createdAt := time })
      ∧ mapGet (addCustomerInteraction customerInteractions caller time freshId payload).2
          freshId =
        some { id := freshId, customerId := caller, productId := payload.productId,
               rating := payload.rating, review := payload.review, createdAt := time }) := by
  constructor
  · intro h
    unfold addCustomerInteraction
    rw [if_pos h]
  · intro h1 h2 h3
    have hcond : ¬(payload.productId = "" ∨ payload.rating = 0 ∨ payload.review = "") := by
      simp [h1, h2, h3]
    constructor
    · unfold addCustomerInteraction
      rw [if_neg hcond]
    · simp only [addCustomerInteraction, if_neg hcond]
      rw [mapGet_mapInsert, if_pos rfl]

/-- Concrete instantiation of
`addCustomerInteraction_zero_vs_nonzero_rating` with the out-of-range
rating `-7`: the review is accepted and stored. -/
theorem addCustomerInteraction_zero_vs_nonzero_rating_witness :
    (addCustomerInteraction [] "alice" 5 "i1"
        { productId := "p1", rating := -7, review := "bad" }).1 =
      Except.ok { id := "i1", customerId := "alice", productId := "p1", rating := -7,
                  review := "bad", createdAt := 5 }
    ∧ (addCustomerInteraction [] "alice" 5 "i2"
        { productId := "p1", rating := 0, review := "bad" }) =
      (Except.error "Invalid payload", []) :=
  ⟨congrArg Prod.fst
     (((addCustomerInteraction_zero_vs_nonzero_rating [] "alice" 5 "i1"
         { productId := "p1", rating := -7, review := "bad" }).2
       (by decide) (by decide) (by decide)).1),
   (addCustomerInteraction_zero_vs_nonzero_rating [] "alice" 5 "i2"
       { productId := "p1", rating := 0, review := "bad" }).1 (by decide)⟩

/-- Claim C4: `confirmOrder(orderId)` returns `true` exactly when the
id is nonempty, the order exists and its status is `placed` — the
function reads no caller identity at all, so this holds for every
calling identity — and it never changes the stored order collection, in
particular in every failing case. -/
theorem confirmOrder_true_iff
    (orders : List (String × Order)) (orderId : String) :
    (confirmOrder orders orderId).2 = orders
    ∧ ((confirmOrder orders orderId).1 = true ↔
        orderId ≠ "" ∧ ∃ ord, mapGet orders orderId = some ord ∧ ord.status = "placed") := by
  refine ⟨confirmOrder_snd _ _, ?_⟩
  unfold confirmOrder
  by_cases h0 : orderId = ""
  · simp [h0]
  · rw [if_neg h0]
    cases hm : mapGet orders orderId with
    | none => simp [hm, h0]
    | some ord =>
      by_cases hs : ord.status = "placed"
      · simp [hm, h0, hs]
      · simp [hm, h0, hs]

/-- Claim C5: `deliverOrder(orderId)` returns `true` exactly when the
id is nonempty, the caller is the deployment-time owner, the order
exists and its status is `confirmed`; so a non-owner caller always gets
`false`, even on an existing `confirmed` order, and the stored order
collection is never changed. -/
theorem deliverOrder_true_iff
    (orders : List (String × Order)) (owner caller orderId : String) :
    (deliverOrder orders owner caller orderId).2 = orders
    ∧ ((deliverOrder orders owner caller orderId).1 = true ↔
        orderId ≠ "" ∧ owner = caller ∧
          ∃ ord, mapGet orders orderId = some ord ∧ ord.status = "confirmed") := by
  refine ⟨deliverOrder_snd _ _ _ _, ?_⟩
  unfold deliverOrder
  by_cases h0 : orderId = ""
  · simp [h0]
  · rw [if_neg h0]
    cases hm : mapGet orders orderId with
    | none => simp [hm, h0]
    | some ord =>
      by_cases how : owner = caller
      · by_cases hs : ord.status = "confirmed"
        · simp [hm, h0, how, hs]
        · simp [hm, h0, how, hs]
      · simp [hm, h0, how]

/-- Claim C6: `updateProductQuantity` fails with the invalid-input
error on an empty id; otherwise with the not-found error when the
product is absent (for every caller, so the existence check precedes
the ownership check); otherwise with the unauthorized error when the
caller is not the deployment owner; otherwise it stores the record with
`quantityAvailable` replaced by `newQuantity`, all other fields
unchanged, and returns it. -/
theorem updateProductQuantity_cases
    (foodProducts : List (String × FoodProduct)) (owner caller productId : String)
    (newQuantity : Int) :
    (productId = "" →
      updateProductQuantity foodProducts owner caller productId newQuantity =
        (Except.error "Invalid Product ID provided.", foodProducts))
    ∧ (productId ≠ "" → mapGet foodProducts productId = none →
      updateProductQuantity foodProducts owner caller productId newQuantity =
        (Except.error ("Couldn't update Product with id=" ++ productId ++ ". Product not found"),
         foodProducts))
    ∧ (∀ p, productId ≠ "" → mapGet foodProducts productId = some p → owner ≠ caller →
      updateProductQuantity foodProducts owner caller productId newQuantity =
        (Except.error "You are not the owner of this product", foodProducts))
    ∧ (∀ p, productId ≠ "" → mapGet foodProducts productId = some p → owner = caller →
        p.id = productId →
      updateProductQuantity foodProducts owner caller productId newQuantity =
        (Except.ok { p with quantityAvailable := newQuantity },
         mapInsert foodProducts productId { p with quantityAvailable := newQuantity })
      ∧ mapGet (updateProductQuantity foodProducts owner caller productId newQuantity).2
          productId =
        some { p with quantityAvailable := newQuantity }) := by
  refine ⟨?_, ?_, ?_, ?_⟩
  · intro h0
    unfold updateProductQuantity
    rw [if_pos h0]
  · intro h0 hnone
    simp [updateProductQuantity, h0, hnone]
  · intro p h0 hp hown
    simp [updateProductQuantity, h0, hp, hown]
  · intro p h0 hp hown hid
    constructor
    · simp [updateProductQuantity, h0, hp, hown, hid]
    · simp [updateProductQuantity, h0, hp, hown, hid, mapGet_mapInsert]

/-- Concrete instantiation of `updateProductQuantity_cases`: the owner
sets the quantity of `p1` to 42 and the stored record keeps every other
field. -/
theorem updateProductQuantity_cases_witness :
    (("p1" : String) ≠ "" ∧ mapGet sampleProducts "p1" = some sampleProduct
      ∧ ("owner" : String) = "owner" ∧ sampleProduct.id = "p1")
    ∧ (updateProductQuantity sampleProducts "owner" "owner" "p1" 42 =
        (Except.ok { sampleProduct with quantityAvailable := 42 },
         mapInsert sampleProducts "p1" { sampleProduct with quantityAvailable := 42 })
      ∧ mapGet (updateProductQuantity sampleProducts "owner" "owner" "p1" 42).2 "p1" =
        some { sampleProduct with quantityAvailable := 42 }) :=
  ⟨⟨by decide, by decide, rfl, by decide⟩,
   (updateProductQuantity_cases sampleProducts "owner" "owner" "p1" 42).2.2.2 sampleProduct
     (by decide) (by decide) rfl (by decide)⟩

/-- Claim C2, evaluated at its failing input: `alice` owns order `o1`
in status `placed`; her first `cancelOrder` call returns `true`, but
the stored collection is unchanged — the status assignment is never
written back — so the stored status is still `placed` and a second
identical call returns `true` again instead of the claimed `false`. -/
theorem cancelOrder_mutation_not_persisted :
    (cancelOrder [("o1", alicePlacedOrder)] "alice" "o1").1 = true
    ∧ (cancelOrder [("o1", alicePlacedOrder)] "alice" "o1").2 = [("o1", alicePlacedOrder)]
    ∧ (mapGet (cancelOrder [("o1", alicePlacedOrder)] "alice" "o1").2 "o1").map
        Order.status = some "placed"
    ∧ (cancelOrder (cancelOrder [("o1", alicePlacedOrder)] "alice" "o1").2 "alice" "o1").1 =
      true := by
  decide

/-- Claim C3: on an order whose stored status is terminal (`cancelled`
or `delivered`), `cancelOrder`, `confirmOrder` and `deliverOrder` all
return `false` for every caller and leave the order collection
unchanged; and across all operations the stored status of an order only
moves along the admissible edges (`statusStepOK`), with `placeOrder`
only ever creating orders in status `placed` when its fresh id is not
yet a key. -/
theorem order_status_terminal_and_monotone
    (orders : List (String × Order)) (orderId : String) (ord : Order)
    (hget : mapGet orders orderId = some ord)
    (hterm : ord.status = "cancelled" ∨ ord.status = "delivered") :
    (∀ caller, (cancelOrder orders caller orderId).1 = false
      ∧ (cancelOrder orders caller orderId).2 = orders)
    ∧ ((confirmOrder orders orderId).1 = false ∧ (confirmOrder orders orderId).2 = orders)
    ∧ (∀ owner caller, (deliverOrder orders owner caller orderId).1 = false
      ∧ (deliverOrder orders owner caller orderId).2 = orders)
    ∧ (∀ caller oid a b, mapGet orders oid = some a →
        mapGet (cancelOrder orders caller oid).2 oid = some b →
        statusStepOK a.status b.status)
    ∧ (∀ oid a b, mapGet orders oid = some a →
        mapGet (confirmOrder orders oid).2 oid = some b →
        statusStepOK a.status b.status)
    ∧ (∀ owner caller oid a b, mapGet orders oid = some a →
        mapGet (deliverOrder orders owner caller oid).2 oid = some b →
        statusStepOK a.status b.status)
    ∧ (∀ foodProducts caller time freshId payload oid b,
        mapGet orders freshId = none →
        mapGet (placeOrder foodProducts orders caller time freshId payload).2.2 oid = some b →
        mapGet orders oid = some b ∨ b.status = "placed") := by
  have hsp : ord.status ≠ "placed" := by
    rcases hterm with h | h <;> simp [h]
  have hsc : ord.status ≠ "confirmed" := by
    rcases hterm with h | h <;> simp [h]
  refine ⟨?_, ?_, ?_, ?_, ?_, ?_, ?_⟩
  · intro caller
    refine ⟨?_, cancelOrder_snd _ _ _⟩
    by_cases h0 : orderId = ""
    · simp [cancelOrder, h0]
    · simp [cancelOrder, h0, hget, hsp]
  · refine ⟨?_, confirmOrder_snd _ _⟩
    by_cases h0 : orderId = ""
    · simp [confirmOrder, h0]
    · simp [confirmOrder, h0, hget, hsp]
  · intro owner caller
    refine ⟨?_, deliverOrder_snd _ _ _ _⟩
    by_cases h0 : orderId = ""
    · simp [deliverOrder, h0]
    · simp [deliverOrder, h0, hget, hsc]
  · intro caller oid a b ha hb
    rw [cancelOrder_snd, ha] at hb
    injection hb with h
    exact Or.inl (congrArg Order.status h)
  · intro oid a b ha hb
    rw [confirmOrder_snd, ha] at hb
    injection hb with h
    exact Or.inl (congrArg Order.status h)
  · intro owner caller oid a b ha hb
    rw [deliverOrder_snd, ha] at hb
    injection hb with h
    exact Or.inl (congrArg Order.status h)
  · intro foodProducts caller time freshId payload oid b _ hb
    by_cases hval : payload.productId = "" ∨ payload.quantity = 0
    · rw [placeOrder, if_pos hval] at hb
      exact Or.inl hb
    · cases hp : mapGet foodProducts payload.productId with
      | none =>
        simp only [placeOrder, if_neg hval, hp] at hb
        exact Or.inl hb
      | some prod =>
        simp only [placeOrder, if_neg hval, hp] at hb
        rw [mapGet_mapInsert] at hb
        by_cases hoid : oid = freshId
        · rw [if_pos hoid] at hb
          injection hb with h
          exact Or.inr (by rw [← h])
        · rw [if_neg hoid] at hb
          exact Or.inl hb

/-- Concrete instantiation of `order_status_terminal_and_monotone` on a
collection holding the already-cancelled order `o2`. -/
theorem order_status_terminal_and_monotone_witness :
    (mapGet [("o2", aliceCancelledOrder)] "o2" = some aliceCancelledOrder
      ∧ (aliceCancelledOrder.status = "cancelled"
        ∨ aliceCancelledOrder.status = "delivered"))
    ∧ ((cancelOrder [("o2", aliceCancelledOrder)] "alice" "o2").1 = false
      ∧ (confirmOrder [("o2", aliceCancelledOrder)] "o2").1 = false
      ∧ (deliverOrder [("o2", aliceCancelledOrder)] "alice" "alice" "o2").1 = false) :=
  ⟨⟨by decide, by decide⟩,
   ((order_status_terminal_and_monotone [("o2", aliceCancelledOrder)] "o2"
       aliceCancelledOrder (by decide) (by decide)).1 "alice").1,
   (order_status_terminal_and_monotone [("o2", aliceCancelledOrder)] "o2"
       aliceCancelledOrder (by decide) (by decide)).2.1.1,
   ((order_status_terminal_and_monotone [("o2", aliceCancelledOrder)] "o2"
       aliceCancelledOrder (by decide) (by decide)).2.2.1 "alice" "alice").1⟩

/-- Claim C10: if every key of the product collection maps to a record
whose `id` equals that key, then the pointwise key/id property holds of
every lookup, and `addProduct`, `updateProductQuantity` and `placeOrder`
each preserve the invariant, because each inserts under the stored
record's own `id`. -/
theorem productMapInv_preserved
    (foodProducts : List (String × FoodProduct)) (orders : List (String × Order))
    (owner caller : String) (time : Nat) (freshId1 freshId2 productId : String)
    (newQuantity : Int) (fp : FoodPayload) (op : OrderPayload)
    (hinv : productMapInv foodProducts = true) :
    (∀ k p, mapGet foodProducts k = some p → p.id = k)
    ∧ productMapInv (addProduct foodProducts freshId1 fp).2 = true
    ∧ productMapInv
        (updateProductQuantity foodProducts owner caller productId newQuantity).2 = true
    ∧ productMapInv (placeOrder foodProducts orders caller time freshId2 op).2.1 = true :=
  ⟨fun k p h => productMapInv_get foodProducts k p hinv h,
   productMapInv_addProduct _ _ _ hinv,
   productMapInv_updateProductQuantity _ _ _ _ _ hinv,
   productMapInv_placeOrder _ _ _ _ _ _ hinv⟩

/-- Concrete instantiation of `productMapInv_preserved` on the
one-product collection. -/
theorem productMapInv_preserved_witness :
    productMapInv sampleProducts = true
    ∧ ((∀ k p, mapGet sampleProducts k = some p → p.id = k)
      ∧ productMapInv (addProduct sampleProducts "p9"
          { name := "Pizza", description := "cheese pizza", price := 700,
            quantityAvailable := 5 }).2 = true
      ∧ productMapInv (updateProductQuantity sampleProducts "owner" "owner" "p1" 4).2 = true
      ∧ productMapInv (placeOrder sampleProducts [] "alice" 9 "o7" sampleOrderPayload).2.1 =
        true) :=
  ⟨by decide,
   productMapInv_preserved sampleProducts [] "owner" "owner" 9 "p9" "o7" "p1" 4
     { name := "Pizza", description := "cheese pizza", price := 700, quantityAvailable := 5 }
     sampleOrderPayload (by decide)⟩

end FoodHub
